import Mathlib

/-!
Verification of the streaming session manager of the homebridge-eufy-security
repository (protect-stream.ts, class ProtectStreamingDelegate).

The TypeScript class is shallowly embedded: the mutable fields of the delegate
become a DelegateState record, each public method becomes a state-passing
function returning the successor state together with a trace of externally
observable effects (calls into the port reservoir, the camera, spawned
transcoder processes, the HomeKit callbacks, log lines), and collaborator
behaviour that lives outside this module (camera online status, RTSP profile
lookup, the port reservoir, timers) is supplied through explicit environment
records. Session-keyed JavaScript objects become association lists with
JavaScript object semantics (lookup of the first binding, assignment replaces,
delete removes).
-/

namespace ProtectStream

/-- One RTSP stream profile, the relevant fields of RtspEntry used in
protect-stream.ts: the channel id, frame rate and bitrate of the channel,
the stream url and the display name. -/
structure RtspEntry where
  channelId : Nat
  fps : Nat
  bitrate : Int
  url : String
  name : String
deriving DecidableEq, Repr

/-- Per-media SRTP parameters of a PrepareStreamRequest. -/
structure SrtpParams where
  srtpCryptoSuite : Nat
  srtp_key : List Nat
  srtp_salt : List Nat
  port : Int
deriving DecidableEq, Repr

/-- The fields of a PrepareStreamRequest read by prepareStream. -/
structure PrepareStreamRequest where
  sessionID : String
  targetAddress : String
  addressVersion : String
  audio : SrtpParams
  video : SrtpParams
deriving DecidableEq, Repr

/-- The audio fields of a StartStreamRequest read by startStream. -/
structure StartAudioParams where
  packet_time : Nat
  pt : Nat
  sample_rate : Nat
  max_bit_rate : Nat
  channel : Nat
deriving DecidableEq, Repr

/-- The video fields of a StartStreamRequest read by startStream. -/
structure StartVideoParams where
  width : Nat
  height : Nat
  fps : Nat
  max_bit_rate : Nat
  pt : Nat
  profile : Nat
  level : Nat
deriving DecidableEq, Repr

/-- The fields of a StartStreamRequest read by startStream. -/
structure StartStreamRequest where
  sessionID : String
  audio : StartAudioParams
  video : StartVideoParams
deriving DecidableEq, Repr

/-- The SessionInfo record stored in pendingSessions by prepareStream.
The rtpDemuxer field records whether an RtpDemuxer was constructed for the
session (the demuxer object itself lives outside this module). -/
structure SessionInfo where
  address : String
  addressVersion : String
  videoPort : Int
  videoReturnPort : Int
  videoCryptoSuite : Nat
  videoSRTP : List Nat
  videoSSRC : Nat
  hasAudioSupport : Bool
  audioPort : Int
  audioIncomingRtcpPort : Int
  audioIncomingRtpPort : Int
  rtpDemuxer : Bool
  rtpPortReservations : List Int
  talkBack : Option String
  audioCryptoSuite : Nat
  audioSRTP : List Nat
  audioSSRC : Nat
deriving DecidableEq, Repr

/-- One entry of ongoingSessions: the spawned FfmpegStreamingProcess handles
(identified by their argument vectors), whether an RTP demuxer is attached,
and the port reservations held by the session. -/
structure OngoingSession where
  ffmpeg : List (List String)
  rtpDemuxer : Bool
  rtpPortReservations : List Int
deriving DecidableEq, Repr

/-- One media half of a PrepareStreamResponse. -/
structure PreparedMedia where
  port : Int
  srtp_key : List Nat
  srtp_salt : List Nat
  ssrc : Nat
deriving DecidableEq, Repr

/-- The PrepareStreamResponse handed to the prepare callback. -/
structure PrepareStreamResponse where
  audio : PreparedMedia
  video : PreparedMedia
deriving DecidableEq, Repr

/-- Externally observable effects of the delegate: calls into the port
reservoir and the camera, process and demuxer lifecycle operations, HomeKit
callbacks, talkback websocket operations, and log lines. -/
inductive Effect where
  | reservePortCall (ipFamily : String) (portCount : Nat) (result : Int)
  | freePort (port : Int)
  | stopProcess (args : List String)
  | spawnProcess (args : List String)
  | closeDemuxer
  | setBitrate (channelId : Nat) (bps : Int)
  | restartTimeshifting
  | prepareCallback (response : PrepareStreamResponse)
  | streamCallback (isError : Bool)
  | wsConnect (url : String)
  | wsTerminate
  | writeStdin (data : String)
  | findRtspCall (width : Nat) (height : Nat) (maxPixels : Nat) (found : Bool)
  | logInfo
  | logError
deriving DecidableEq, Repr

/-- The mutable state of a ProtectStreamingDelegate instance that the
streaming session manager reads and writes: the two session tables, the
probe-size backoff state, the selected RTSP entry and the saved bitrate.
The hksv field records whether a recording delegate was created for the
camera. The probesizeOverrideTimeout field models the armed decay timer:
some d is a pending timer with delay d milliseconds, none means no timer. -/
structure DelegateState where
  ongoingSessions : List (String × OngoingSession)
  pendingSessions : List (String × SessionInfo)
  probesizeOverride : Nat
  probesizeOverrideCount : Nat
  probesizeOverrideTimeout : Option Nat
  rtspEntry : Option RtspEntry
  savedBitrate : Int
  hksv : Bool
deriving DecidableEq, Repr

/-- The state of a freshly constructed delegate (constructor of
ProtectStreamingDelegate). -/
def initState (hasHksv : Bool) : DelegateState :=
  { ongoingSessions := []
    pendingSessions := []
    probesizeOverride := 0
    probesizeOverrideCount := 0
    probesizeOverrideTimeout := none
    rtspEntry := none
    savedBitrate := 0
    hksv := hasHksv }

/-- Lookup in a JavaScript object modelled as an association list: the first
binding of the key, none when the key is absent. -/
def lookupStr {α : Type} (m : List (String × α)) (k : String) : Option α :=
  match m with
  | [] => none
  | (k2, v) :: rest => if k2 = k then some v else lookupStr rest k

/-- The JavaScript delete operator on an object key: removes every binding of
the key. -/
def eraseStr {α : Type} (m : List (String × α)) (k : String) : List (String × α) :=
  m.filter (fun kv => !(kv.1 == k))

/-- JavaScript object key assignment: replaces the binding when present,
appends a new binding otherwise. -/
def insertStr {α : Type} (m : List (String × α)) (k : String) (v : α) :
    List (String × α) :=
  if (lookupStr m k).isSome then
    m.map (fun kv => if kv.1 = k then (k, v) else kv)
  else
    m ++ [(k, v)]

/-- In-place update of the value bound to a key (used for the push onto the
ffmpeg list of an ongoing session). -/
def modifyStr {α : Type} (m : List (String × α)) (k : String) (f : α → α) :
    List (String × α) :=
  m.map (fun kv => if kv.1 = k then (kv.1, f kv.2) else kv)

/-- The probesize getter of ProtectStreamingDelegate: the override when it is
nonzero (JavaScript truthiness of a number), otherwise the probesize hint
configured for the camera. -/
def probesize (st : DelegateState) (hintsProbesize : Nat) : Nat :=
  if st.probesizeOverride ≠ 0 then st.probesizeOverride else hintsProbesize

/-- The adjustProbeSize method: clear a pending decay timer, increment the
failure counter, double the current effective probe size capping it at
5000000, log, and arm a fresh ten minute decay timer unless the counter has
reached 10. -/
def adjustProbeSize (st : DelegateState) (hintsProbesize : Nat) :
    DelegateState × List Effect :=
  let st := if st.probesizeOverrideTimeout.isSome then
      { st with probesizeOverrideTimeout := none } else st
  let st := { st with probesizeOverrideCount := st.probesizeOverrideCount + 1 }
  let st := { st with probesizeOverride := probesize st hintsProbesize * 2 }
  let st := if st.probesizeOverride > 5000000 then
      { st with probesizeOverride := 5000000 } else st
  let st := if st.probesizeOverrideCount < 10 then
      { st with probesizeOverrideTimeout := some (1000 * 60 * 10) } else st
  (st, [Effect.logError])

/-- Firing of the armed decay timer: the timer callback resets the override
to zero and discards the handle. A timer that is not armed cannot fire. -/
def probesizeDecayFire (st : DelegateState) : DelegateState :=
  if st.probesizeOverrideTimeout.isSome then
    { st with probesizeOverride := 0, probesizeOverrideTimeout := none }
  else st

/-- n successive calls to adjustProbeSize, earliest call first. -/
def adjustIter (hintsProbesize : Nat) : Nat → DelegateState → DelegateState
  | 0, st => st
  | n + 1, st => adjustIter hintsProbesize n (adjustProbeSize st hintsProbesize).1

/-- Environment of one prepareStream call: the port reservoir (the n-th call
to platform.rtpPorts.reservePort returns the given port, -1 on failure), the
twoWayAudio hint of the camera, whether ffmpegOptions.audioEncoder is
nonempty, and the two fresh synchronisation sources generated by HAP. -/
structure PrepareEnv where
  reservoir : Nat → Int
  twoWayAudio : Bool
  audioEncoderNonempty : Bool
  audioSSRC : Nat
  videoSSRC : Nat

/-- State of the reservePort closure inside prepareStream: the failure flag,
the reservation list being accumulated, the number of reservoir calls made so
far, and the effect trace. -/
structure ReserveState where
  reservePortFailed : Bool
  rtpPortReservations : List Int
  callIndex : Nat
  trace : List Effect
deriving Repr

/-- The reservePort closure of prepareStream: once a reservation has failed
no further reservoir calls are made; a successful reservation is recorded
(both ports of a contiguous pair). -/
def reservePort (env : PrepareEnv) (ipFamily : String) (portCount : Nat)
    (rs : ReserveState) : Int × ReserveState :=
  if rs.reservePortFailed then
    (-1, rs)
  else
    let assignedPort := env.reservoir rs.callIndex
    let rs := { rs with
      callIndex := rs.callIndex + 1
      trace := rs.trace ++ [Effect.reservePortCall ipFamily portCount assignedPort] }
    if assignedPort = -1 then
      (assignedPort, { rs with reservePortFailed := true })
    else
      let rs := { rs with rtpPortReservations := rs.rtpPortReservations ++ [assignedPort] }
      let rs := if portCount = 2 then
          { rs with rtpPortReservations := rs.rtpPortReservations ++ [assignedPort + 1] }
        else rs
      (assignedPort, rs)

/-- The prepareStream method: reserve the audio RTCP port, the two-way audio
ports when supported, and the video return port; construct the demuxer for
two-way audio; store the pending SessionInfo; always invoke the prepare
callback with a response. The talkback websocket request is commented out in
this build, so talkBack is always null and the branch logs an error. -/
def prepareStream (st : DelegateState) (request : PrepareStreamRequest)
    (env : PrepareEnv) : DelegateState × List Effect :=
  let rs0 : ReserveState := ⟨false, [], 0, []⟩
  let isAudioEnabled := true
  let hasAudioSupport := isAudioEnabled && env.audioEncoderNonempty
  let res1 := reservePort env request.addressVersion 1 rs0
  let audioIncomingRtcpPort := res1.1
  let rs1 := res1.2
  let res2 :=
    if hasAudioSupport && env.twoWayAudio then
      reservePort env request.addressVersion 1 rs1
    else (-1, rs1)
  let audioIncomingPort := res2.1
  let rs2 := res2.2
  let res3 :=
    if hasAudioSupport && env.twoWayAudio then
      reservePort env request.addressVersion 2 rs2
    else (-1, rs2)
  let audioIncomingRtpPort := res3.1
  let rs3 := res3.2
  let audioSSRC := env.audioSSRC
  let rs3 := if !hasAudioSupport then { rs3 with trace := rs3.trace ++ [Effect.logInfo] } else rs3
  let rtpDemuxer := hasAudioSupport && env.twoWayAudio
  let talkBack : Option String := none
  let rs3 := if hasAudioSupport && env.twoWayAudio && talkBack.isNone then
      { rs3 with trace := rs3.trace ++ [Effect.logError] }
    else rs3
  let res4 := reservePort env request.addressVersion 1 rs3
  let videoReturnPort := res4.1
  let rs4 := res4.2
  let videoSSRC := env.videoSSRC
  let trace := rs4.trace ++ (if rs4.reservePortFailed then [Effect.logError] else [])
  let sessionInfo : SessionInfo := {
    address := request.targetAddress
    addressVersion := request.addressVersion
    audioCryptoSuite := request.audio.srtpCryptoSuite
    audioIncomingRtcpPort := audioIncomingRtcpPort
    audioIncomingRtpPort := audioIncomingRtpPort
    audioPort := request.audio.port
    audioSRTP := request.audio.srtp_key ++ request.audio.srtp_salt
    audioSSRC := audioSSRC
    hasAudioSupport := hasAudioSupport
    rtpDemuxer := rtpDemuxer
    rtpPortReservations := rs4.rtpPortReservations
    talkBack := talkBack
    videoCryptoSuite := request.video.srtpCryptoSuite
    videoPort := request.video.port
    videoReturnPort := videoReturnPort
    videoSRTP := request.video.srtp_key ++ request.video.srtp_salt
    videoSSRC := videoSSRC }
  let response : PrepareStreamResponse := {
    audio := {
      port := if hasAudioSupport && env.twoWayAudio then audioIncomingPort else audioIncomingRtcpPort
      srtp_key := request.audio.srtp_key
      srtp_salt := request.audio.srtp_salt
      ssrc := audioSSRC }
    video := {
      port := videoReturnPort
      srtp_key := request.video.srtp_key
      srtp_salt := request.video.srtp_salt
      ssrc := videoSSRC } }
  let st := { st with pendingSessions := insertStr st.pendingSessions request.sessionID sessionInfo }
  (st, trace ++ [Effect.prepareCallback response])

/-- Camera configuration hints read by startStream. -/
structure Hints where
  transcode : Bool
  transcodeHighLatency : Bool
  hardwareTranscoding : Bool
  twoWayAudio : Bool
  probesize : Nat
  audioFilterNoise : Bool
deriving DecidableEq, Repr

/-- The ffmpegOptions collaborator (utils/ffmpeg-options.js, outside this
module): decoder and encoder argument fragments and the host pixel budget.
The streamEncoder argument fragment for the requested video parameters is
supplied already rendered since the method lives outside this module. -/
structure FfmpegOpts where
  videoDecoder : List String
  audioEncoder : List String
  audioDecoder : String
  hostSystemMaxPixels : Nat
  streamEncoderArgs : List String
deriving DecidableEq, Repr

/-- Environment of one startStream call: camera online status, the RTSP
profile lookup result, the current camera bitrate, hints and ffmpeg options,
logging verbosity, the camera display name, and the behaviour of the
asynchronous two-way audio tail (whether the demuxer ever emits a first RTP
packet, and whether it is still running when that packet arrives). -/
structure StartEnv where
  isOnline : Bool
  findRtsp : Option RtspEntry
  getBitrate : Int
  hints : Hints
  ffmpegOptions : FfmpegOpts
  verboseFfmpeg : Bool
  enableDetailedLogging : Bool
  cameraName : String
  afOptions : String
  rtpEventArrives : Bool
  demuxerRunningAfterRtp : Bool
deriving DecidableEq, Repr

/-- A JavaScript runtime exception escaping startStream. Reading the
addressVersion property of an undefined pending session record raises a
TypeError. -/
inductive StartThrow where
  | sessionInfoUndefined
deriving DecidableEq, Repr

/-- Model of Buffer.prototype.toString with base64 encoding, provided by the
Node runtime outside this module: an injective textual rendering of the byte
buffer. -/
def bufferBase64 (b : List Nat) : String :=
  "base64(" ++ toString b ++ ")"

/-- The startStream method. Returns the successor state, the effect trace and
the escaped exception, if any. The pending session record is dereferenced
before the offline check: a missing record raises a TypeError immediately.
The two asynchronous suspension points of the two-way audio tail (waiting for
the first demuxed RTP packet) are resolved by the environment; when the
packet never arrives the method stays suspended and performs nothing further. -/
def startStream (st : DelegateState) (request : StartStreamRequest)
    (env : StartEnv) : DelegateState × List Effect × Option StartThrow :=
  match lookupStr st.pendingSessions request.sessionID with
  | none =>
    -- sessionInfo is undefined: sessionInfo.addressVersion throws before
    -- anything else happens and the callback is never invoked.
    (st, [], some StartThrow.sessionInfoUndefined)
  | some sessionInfo =>
    let sdpIpVersion := if sessionInfo.addressVersion = "ipv6" then "IP6 " else "IP4"
    if !env.isOnline then
      (st, [Effect.logError, Effect.streamCallback true], none)
    else
      let isTranscoding := env.hints.transcode ||
        (decide (request.audio.packet_time ≥ 60) && env.hints.transcodeHighLatency)
      let rtspWidth := if isTranscoding && env.hints.hardwareTranscoding then 3840 else request.video.width
      let rtspHeight := if isTranscoding && env.hints.hardwareTranscoding then 2160 else request.video.height
      let rtspMaxPixels := if isTranscoding then env.ffmpegOptions.hostSystemMaxPixels else 0
      let st := { st with rtspEntry := env.findRtsp }
      let trace := [Effect.findRtspCall rtspWidth rtspHeight rtspMaxPixels env.findRtsp.isSome]
      match env.findRtsp with
      | none =>
        (st, trace ++ [Effect.logError, Effect.streamCallback true], none)
      | some rtspEntry =>
        -- Save the current bitrate, but only for the first concurrent stream.
        let st :=
          if st.savedBitrate = 0 then
            let saved := env.getBitrate
            { st with savedBitrate := if saved < 0 then 0 else saved }
          else st
        let trace := trace ++
          [Effect.setBitrate rtspEntry.channelId ((request.video.max_bit_rate : Int) * 1000)]
        let videomtu := 188 * 3
        let audiomtu := 188 * 1
        let ffmpegArgs :=
          ["-hide_banner", "-nostats", "-fflags", "+discardcorrupt"] ++
          env.ffmpegOptions.videoDecoder ++
          ["-probesize", toString (probesize st env.hints.probesize),
           "-max_delay", "500000",
           "-r", toString rtspEntry.fps,
           "-rtsp_transport", "tcp",
           "-i", rtspEntry.url,
           "-map", "0:v:0"]
        let trace := trace ++ [Effect.logInfo]
        let ffmpegArgs := ffmpegArgs ++
          (if isTranscoding then env.ffmpegOptions.streamEncoderArgs else ["-vcodec", "copy"])
        let ffmpegArgs := ffmpegArgs ++
          ["-payload_type", toString request.video.pt,
           "-ssrc", toString sessionInfo.videoSSRC,
           "-f", "rtp",
           "-srtp_out_suite", "AES_CM_128_HMAC_SHA1_80",
           "-srtp_out_params", bufferBase64 sessionInfo.videoSRTP,
           "srtp://" ++ sessionInfo.address ++ ":" ++ toString sessionInfo.videoPort ++
             "?rtcpport=" ++ toString sessionInfo.videoPort ++ "&pkt_size=" ++ toString (videomtu : Nat)]
        let ffmpegArgs := ffmpegArgs ++
          (if sessionInfo.hasAudioSupport then
            ["-map", "0:a:0?"] ++
            env.ffmpegOptions.audioEncoder ++
            ["-profile:a", "38",
             "-flags", "+global_header",
             "-f", "null",
             "-ar", toString request.audio.sample_rate ++ "k",
             "-b:a", toString request.audio.max_bit_rate ++ "k",
             "-bufsize", toString (2 * request.audio.max_bit_rate) ++ "k",
             "-ac", toString request.audio.channel] ++
            (if env.hints.audioFilterNoise then ["-af", env.afOptions] else []) ++
            ["-payload_type", toString request.audio.pt,
             "-ssrc", toString sessionInfo.audioSSRC,
             "-f", "rtp",
             "-srtp_out_suite", "AES_CM_128_HMAC_SHA1_80",
             "-srtp_out_params", bufferBase64 sessionInfo.audioSRTP,
             "srtp://" ++ sessionInfo.address ++ ":" ++ toString sessionInfo.audioPort ++
               "?rtcpport=" ++ toString sessionInfo.audioPort ++ "&pkt_size=" ++ toString (audiomtu : Nat)]
          else [])
        let ffmpegArgs := ffmpegArgs ++
          (if env.verboseFfmpeg then ["-loglevel", "level+verbose"] else [])
        let ffmpegArgs := ffmpegArgs ++
          (if env.enableDetailedLogging then ["-loglevel", "level+debug"] else [])
        let trace := trace ++ [Effect.spawnProcess ffmpegArgs]
        let st := { st with
          ongoingSessions := insertStr st.ongoingSessions request.sessionID
            { ffmpeg := [ffmpegArgs]
              rtpDemuxer := sessionInfo.rtpDemuxer
              rtpPortReservations := sessionInfo.rtpPortReservations } }
        let st := { st with pendingSessions := eraseStr st.pendingSessions request.sessionID }
        if !sessionInfo.hasAudioSupport || !env.hints.twoWayAudio then
          (st, trace, none)
        else
          -- Two-way audio plumbing.
          let sdpReturnAudio := String.intercalate "\n"
            ["v=0",
             "o=- 0 0 IN " ++ sdpIpVersion ++ " 127.0.0.1",
             "s=" ++ env.cameraName ++ " Audio Talkback",
             "c=IN " ++ sdpIpVersion ++ " " ++ sessionInfo.address,
             "t=0 0",
             "m=audio " ++ toString sessionInfo.audioIncomingRtpPort ++ " RTP/AVP " ++ toString request.audio.pt,
             "b=AS:24",
             "a=rtpmap:110 MPEG4-GENERIC/" ++
               (if request.audio.sample_rate = 16 then "16000" else "24000") ++ "/" ++ toString request.audio.channel,
             "a=fmtp:110 profile-level-id=1;mode=AAC-hbr;sizelength=13;indexlength=3;indexdeltalength=3; config=" ++
               (if request.audio.sample_rate = 16 then "F8F0212C00BC00" else "F8EC212C00BC00"),
             "a=crypto:1 AES_CM_128_HMAC_SHA1_80 inline:" ++ bufferBase64 sessionInfo.audioSRTP]
          let ffmpegReturnAudioCmd :=
            ["-hide_banner", "-nostats",
             "-protocol_whitelist", "crypto,file,pipe,rtp,udp",
             "-f", "sdp",
             "-acodec", env.ffmpegOptions.audioDecoder,
             "-i", "pipe:0",
             "-map", "0:a:0"] ++
            env.ffmpegOptions.audioEncoder ++
            ["-flags", "+global_header",
             "-b:a", toString request.audio.max_bit_rate ++ "k",
             "-f", "adts",
             "pipe:1"]
          let ffmpegReturnAudioCmd := ffmpegReturnAudioCmd ++
            (if env.verboseFfmpeg then ["-loglevel", "level+verbose"] else [])
          let ffmpegReturnAudioCmd := ffmpegReturnAudioCmd ++
            (if env.enableDetailedLogging then ["-loglevel", "level+debug"] else [])
          let trace := trace ++
            (match sessionInfo.talkBack with
             | some url => [Effect.wsConnect url]
             | none => [])
          if sessionInfo.rtpDemuxer && !env.rtpEventArrives then
            -- The awaited first RTP packet never arrives: the method stays
            -- suspended here and nothing further happens.
            (st, trace, none)
          else if sessionInfo.rtpDemuxer && !env.demuxerRunningAfterRtp then
            -- The demuxer was closed before the packet arrived: terminate the
            -- talkback websocket, if any, and bail out.
            (st, trace ++ (if sessionInfo.talkBack.isSome then [Effect.wsTerminate] else []), none)
          else
            let trace := trace ++ [Effect.spawnProcess ffmpegReturnAudioCmd]
            let st := { st with
              ongoingSessions := modifyStr st.ongoingSessions request.sessionID
                (fun s => { s with ffmpeg := s.ffmpeg ++ [ffmpegReturnAudioCmd] }) }
            let trace := trace ++ [Effect.writeStdin (sdpReturnAudio ++ "\n")]
            (st, trace, none)

/-- Intermediate state of one stopStream execution inside its try block: the
delegate state mutated so far, the effects performed so far, and whether a
statement has thrown (transferring control to the catch clause). -/
structure StopRun where
  st : DelegateState
  trace : List Effect
  thrown : Bool
deriving DecidableEq, Repr

/-- Perform one external call inside the try block of stopStream. The faulty
predicate designates the calls that throw: a throwing call performs no
observable effect and transfers control to the catch clause, after which
every remaining statement is skipped. -/
def emitExt (faulty : Effect → Bool) (e : Effect) (r : StopRun) : StopRun :=
  if r.thrown then r
  else if faulty e then { r with thrown := true }
  else { r with trace := r.trace ++ [e] }

/-- Log statements inside the try block never throw. -/
def emitLog (e : Effect) (r : StopRun) : StopRun :=
  if r.thrown then r else { r with trace := r.trace ++ [e] }

/-- A pure state mutation inside the try block (object key deletes, field
assignments); skipped once control has transferred to the catch clause. -/
def modifySt (f : DelegateState → DelegateState) (r : StopRun) : StopRun :=
  if r.thrown then r else { r with st := f r.st }

/-- The final statements of the stopStream try block: when no ongoing session
remains, either restart the timeshift buffer (recording active) or restore a
saved nonzero bitrate and clear the saved value. -/
def stopFinish (faulty : Effect → Bool) (hksvIsRecording : Bool) (r : StopRun) :
    StopRun :=
  if r.thrown then r
  else if r.st.ongoingSessions.isEmpty then
    if hksvIsRecording then
      emitExt faulty Effect.restartTimeshifting r
    else if r.st.savedBitrate ≠ 0 then
      let r :=
        match r.st.rtspEntry with
        | some entry => emitExt faulty (Effect.setBitrate entry.channelId r.st.savedBitrate) r
        | none => r
      modifySt (fun st => { st with savedBitrate := 0 }) r
    else r
  else r

/-- The body of the try block of stopStream, statement by statement in source
order: stop every ffmpeg process of the ongoing record, close its demuxer,
log, free its ports, free the ports of a still-pending record, delete both
records, and finally the restore step of stopFinish. -/
def stopStreamBody (faulty : Effect → Bool) (st : DelegateState)
    (sessionId : String) (hksvIsRecording : Bool) : StopRun :=
  let r : StopRun := ⟨st, [], false⟩
  let r :=
    match lookupStr st.ongoingSessions sessionId with
    | some s =>
      let r := s.ffmpeg.foldl (fun r p => emitExt faulty (Effect.stopProcess p) r) r
      let r := if s.rtpDemuxer then emitExt faulty Effect.closeDemuxer r else r
      let r := emitLog Effect.logInfo r
      s.rtpPortReservations.foldl (fun r p => emitExt faulty (Effect.freePort p) r) r
    | none => r
  let r :=
    match lookupStr st.pendingSessions sessionId with
    | some si =>
      si.rtpPortReservations.foldl (fun r p => emitExt faulty (Effect.freePort p) r) r
    | none => r
  let r := modifySt (fun st => { st with pendingSessions := eraseStr st.pendingSessions sessionId }) r
  let r := modifySt (fun st => { st with ongoingSessions := eraseStr st.ongoingSessions sessionId }) r
  stopFinish faulty hksvIsRecording r

/-- The stopStream method under the given fault assignment: the try block
followed by the catch clause, which logs a caught error and returns normally. -/
def stopStream (faulty : Effect → Bool) (st : DelegateState) (sessionId : String)
    (hksvIsRecording : Bool) : DelegateState × List Effect :=
  let r := stopStreamBody faulty st sessionId hksvIsRecording
  if r.thrown then (r.st, r.trace ++ [Effect.logError]) else (r.st, r.trace)

/-- The fault assignment under which no external call throws; stopStream
under noFault is the normal semantics of the method. -/
def noFault : Effect → Bool := fun _ => false

/-- The shutdown method: stop every session id currently in ongoingSessions
(a snapshot of the keys is iterated; pendingSessions is not consulted). -/
def shutdown (st : DelegateState) (hksvIsRecording : Bool) :
    DelegateState × List Effect :=
  (st.ongoingSessions.map Prod.fst).foldl
    (fun acc id =>
      let res := stopStream noFault acc.1 id hksvIsRecording
      (res.1, acc.2 ++ res.2))
    (st, [])

/-- The reconfigure branch of handleStreamRequest: when an RTSP entry is
active, push the newly requested bitrate to the camera; no state changes. -/
def reconfigureStream (st : DelegateState) (request : StartStreamRequest) :
    DelegateState × List Effect :=
  match st.rtspEntry with
  | some entry =>
    (st, [Effect.logInfo,
          Effect.setBitrate entry.channelId ((request.video.max_bit_rate : Int) * 1000),
          Effect.streamCallback false])
  | none => (st, [Effect.logInfo, Effect.streamCallback false])

/-- One externally triggered operation on the delegate, with the environment
data the operation consumes. -/
inductive Event where
  | prepare (request : PrepareStreamRequest) (env : PrepareEnv)
  | start (request : StartStreamRequest) (env : StartEnv)
  | reconfigure (request : StartStreamRequest)
  | stop (sessionId : String) (hksvIsRecording : Bool)
  | adjustProbe (hintsProbesize : Nat)
  | probeDecayFire

/-- The state component of one operation of the delegate. -/
def stepState (st : DelegateState) : Event → DelegateState
  | Event.prepare request env => (prepareStream st request env).1
  | Event.start request env => (startStream st request env).1
  | Event.reconfigure request => (reconfigureStream st request).1
  | Event.stop sessionId rec => (stopStream noFault st sessionId rec).1
  | Event.adjustProbe h => (adjustProbeSize st h).1
  | Event.probeDecayFire => probesizeDecayFire st

/-- Run a list of operations, earliest first. -/
def runEvents (st : DelegateState) : List Event → DelegateState
  | [] => st
  | e :: es => runEvents (stepState st e) es

/-- The number of adjustProbeSize operations in a list of operations. -/
def countAdjust (evs : List Event) : Nat :=
  evs.countP (fun e => match e with | Event.adjustProbe _ => true | _ => false)

/-- The effects of the ongoing-session part of the stopStream try block when
nothing throws. -/
def stopTraceOngoing (st : DelegateState) (id : String) : List Effect :=
  match lookupStr st.ongoingSessions id with
  | some s =>
    s.ffmpeg.map Effect.stopProcess ++
    (if s.rtpDemuxer then [Effect.closeDemuxer] else []) ++
    [Effect.logInfo] ++
    s.rtpPortReservations.map Effect.freePort
  | none => []

/-- The effects of the pending-session part of the stopStream try block when
nothing throws. -/
def stopTracePending (st : DelegateState) (id : String) : List Effect :=
  match lookupStr st.pendingSessions id with
  | some si => si.rtpPortReservations.map Effect.freePort
  | none => []

/-- The delegate state after both record deletes of stopStream. -/
def stopAfterDeletes (st : DelegateState) (id : String) : DelegateState :=
  { st with
    pendingSessions := eraseStr st.pendingSessions id
    ongoingSessions := eraseStr st.ongoingSessions id }

/-- The final restore step of stopStream when nothing throws: on the last
ongoing session gone, either restart the timeshift buffer or restore a saved
nonzero bitrate (only when an RTSP entry is set) and clear the saved value. -/
def stopRestore (st : DelegateState) (hksvIsRecording : Bool) :
    DelegateState × List Effect :=
  if st.ongoingSessions.isEmpty then
    if hksvIsRecording then
      (st, [Effect.restartTimeshifting])
    else if st.savedBitrate ≠ 0 then
      ({ st with savedBitrate := 0 },
       match st.rtspEntry with
       | some entry => [Effect.setBitrate entry.channelId st.savedBitrate]
       | none => [])
    else (st, [])
  else (st, [])

theorem emitExt_noFault (e : Effect) (sst : DelegateState) (tr : List Effect) :
    emitExt noFault e ⟨sst, tr, false⟩ = ⟨sst, tr ++ [e], false⟩ := by
  simp [emitExt, noFault]

theorem emitLog_mk (e : Effect) (sst : DelegateState) (tr : List Effect) :
    emitLog e ⟨sst, tr, false⟩ = ⟨sst, tr ++ [e], false⟩ := by
  simp [emitLog]

theorem modifySt_mk (f : DelegateState → DelegateState) (sst : DelegateState)
    (tr : List Effect) : modifySt f ⟨sst, tr, false⟩ = ⟨f sst, tr, false⟩ := by
  simp [modifySt]

theorem foldl_emitExt_noFault {α : Type} (g : α → Effect) (l : List α)
    (sst : DelegateState) (tr : List Effect) :
    l.foldl (fun r x => emitExt noFault (g x) r) ⟨sst, tr, false⟩ =
      ⟨sst, tr ++ l.map g, false⟩ := by
  induction l generalizing tr with
  | nil => simp
  | cons a l ih => simp [emitExt_noFault, ih]

/-- Under the no-fault semantics the restore step of stopStream computes
stopRestore and appends its effects. -/
theorem stopFinish_noFault (rec : Bool) (sst : DelegateState) (tr : List Effect) :
    stopFinish noFault rec ⟨sst, tr, false⟩ =
      ⟨(stopRestore sst rec).1, tr ++ (stopRestore sst rec).2, false⟩ := by
  unfold stopFinish stopRestore
  by_cases h1 : sst.ongoingSessions.isEmpty
  · by_cases h2 : rec
    · simp [h1, h2, emitExt_noFault]
    · by_cases h3 : sst.savedBitrate ≠ 0
      · cases hE : sst.rtspEntry with
        | none => simp [h1, h2, h3, hE, modifySt_mk]
        | some entry => simp [h1, h2, h3, hE, emitExt_noFault, modifySt_mk]
      · simp [h1, h2, h3]
  · simp [h1]

/-- Under the no-fault semantics the try block of stopStream runs to the end:
its result decomposes into the ongoing teardown effects, the pending teardown
effects, both deletes and the restore step. -/
theorem stopStreamBody_noFault (st : DelegateState) (id : String) (rec : Bool) :
    stopStreamBody noFault st id rec =
      ⟨(stopRestore (stopAfterDeletes st id) rec).1,
       stopTraceOngoing st id ++ stopTracePending st id ++
         (stopRestore (stopAfterDeletes st id) rec).2,
       false⟩ := by
  unfold stopStreamBody
  cases hO : lookupStr st.ongoingSessions id with
  | none =>
    cases hP : lookupStr st.pendingSessions id with
    | none =>
      simp [stopTraceOngoing, stopTracePending, stopAfterDeletes, hO, hP,
        modifySt_mk, stopFinish_noFault]
    | some si =>
      simp [stopTraceOngoing, stopTracePending, stopAfterDeletes, hO, hP,
        foldl_emitExt_noFault, modifySt_mk, stopFinish_noFault]
  | some s =>
    cases hP : lookupStr st.pendingSessions id with
    | none =>
      by_cases hD : s.rtpDemuxer <;>
        simp [stopTraceOngoing, stopTracePending, stopAfterDeletes, hO, hP, hD,
          foldl_emitExt_noFault, emitExt_noFault, emitLog_mk, modifySt_mk,
          stopFinish_noFault]
    | some si =>
      by_cases hD : s.rtpDemuxer <;>
        simp [stopTraceOngoing, stopTracePending, stopAfterDeletes, hO, hP, hD,
          foldl_emitExt_noFault, emitExt_noFault, emitLog_mk, modifySt_mk,
          stopFinish_noFault]

/-- Closed form of stopStream under the no-fault semantics. -/
theorem stopStream_noFault_eq (st : DelegateState) (id : String) (rec : Bool) :
    stopStream noFault st id rec =
      ((stopRestore (stopAfterDeletes st id) rec).1,
       stopTraceOngoing st id ++ stopTracePending st id ++
         (stopRestore (stopAfterDeletes st id) rec).2) := by
  unfold stopStream
  rw [stopStreamBody_noFault]
  rfl

theorem lookupStr_eraseStr_self {α : Type} (m : List (String × α)) (k : String) :
    lookupStr (eraseStr m k) k = none := by
  induction m with
  | nil => rfl
  | cons kv rest ih =>
    by_cases h : kv.1 = k
    · simpa [eraseStr, h] using ih
    · simpa [eraseStr, lookupStr, h] using ih

theorem lookupStr_eraseStr_ne {α : Type} (m : List (String × α)) (k k2 : String)
    (h : k2 ≠ k) : lookupStr (eraseStr m k2) k = lookupStr m k := by
  induction m with
  | nil => rfl
  | cons kv rest ih =>
    obtain ⟨a, b⟩ := kv
    simp only [eraseStr, List.filter_cons] at ih ⊢
    by_cases h1 : a = k2
    · have h2 : a ≠ k := h1 ▸ h
      simp [h1, h2, lookupStr, ih, h]
    · by_cases h2 : a = k <;> simp [h1, h2, lookupStr, ih, Ne.symm h]

theorem eraseStr_eraseStr {α : Type} (m : List (String × α)) (k : String) :
    eraseStr (eraseStr m k) k = eraseStr m k := by
  induction m with
  | nil => rfl
  | cons kv rest ih =>
    simp only [eraseStr, List.filter_cons] at ih ⊢
    by_cases h : kv.1 = k
    · simp [h, ih]
    · simp [h, ih]

theorem lookupStr_mem_keys {α : Type} (m : List (String × α)) (k : String)
    (v : α) (h : lookupStr m k = some v) : k ∈ m.map Prod.fst := by
  induction m with
  | nil => simp [lookupStr] at h
  | cons kv rest ih =>
    by_cases h1 : kv.1 = k
    · simp [h1]
    · simp only [lookupStr, h1, if_neg] at h
      simp [ih h]

/-- Record-level characterization of one adjustProbeSize call: the counter
goes up by one, the override becomes the doubled effective probe size capped
at 5000000, and the decay timer ends up armed exactly when the incremented
counter is still below 10. -/
theorem adjustProbeSize_spec (st : DelegateState) (h : Nat) :
    (adjustProbeSize st h).1 =
      { st with
        probesizeOverrideCount := st.probesizeOverrideCount + 1
        probesizeOverride :=
          if probesize st h * 2 > 5000000 then 5000000 else probesize st h * 2
        probesizeOverrideTimeout :=
          if st.probesizeOverrideCount + 1 < 10 then some (1000 * 60 * 10) else none } := by
  unfold adjustProbeSize probesize
  cases hT : st.probesizeOverrideTimeout <;>
    dsimp only [Option.isSome_some, Option.isSome_none] <;>
    by_cases c2 : (if st.probesizeOverride ≠ 0 then st.probesizeOverride else h) * 2 > 5000000 <;>
    by_cases c3 : st.probesizeOverrideCount + 1 < 10 <;>
    simp only [c2, c3, if_true, if_false, Bool.false_eq_true] <;>
    simp [hT]

theorem adjustProbeSize_probesizeOverrideCount (st : DelegateState) (h : Nat) :
    (adjustProbeSize st h).1.probesizeOverrideCount = st.probesizeOverrideCount + 1 := by
  rw [adjustProbeSize_spec]

theorem adjustProbeSize_probesizeOverrideTimeout (st : DelegateState) (h : Nat) :
    (adjustProbeSize st h).1.probesizeOverrideTimeout =
      if st.probesizeOverrideCount + 1 < 10 then some (1000 * 60 * 10) else none := by
  rw [adjustProbeSize_spec]

theorem adjustProbeSize_probesizeOverride (st : DelegateState) (h : Nat) :
    (adjustProbeSize st h).1.probesizeOverride = min (probesize st h * 2) 5000000 := by
  rw [adjustProbeSize_spec]
  show (if probesize st h * 2 > 5000000 then 5000000 else probesize st h * 2) = _
  rw [Nat.min_def]
  split <;> split <;> omega

theorem probesize_def (st : DelegateState) (h : Nat) :
    probesize st h = if st.probesizeOverride ≠ 0 then st.probesizeOverride else h := rfl

theorem probesize_adjustProbeSize (st : DelegateState) (h : Nat) :
    probesize (adjustProbeSize st h).1 h = min (probesize st h * 2) 5000000 := by
  have hov := adjustProbeSize_probesizeOverride st h
  by_cases hp : probesize st h = 0
  · have h0 : h = 0 := by
      unfold probesize at hp
      split at hp
      · next hcond => exact absurd hp hcond
      · exact hp
    have hz : (adjustProbeSize st h).1.probesizeOverride = 0 := by
      rw [hov, hp]
      simp
    rw [probesize_def (adjustProbeSize st h).1 h, hz, hp]
    simp [h0]
  · have hne : (adjustProbeSize st h).1.probesizeOverride ≠ 0 := by
      rw [hov, Nat.min_def]
      have := Nat.pos_of_ne_zero hp
      split <;> omega
    rw [probesize_def (adjustProbeSize st h).1 h, if_pos hne, hov]

theorem adjustIter_probesizeOverrideCount (h n : Nat) (st : DelegateState) :
    (adjustIter h n st).probesizeOverrideCount = st.probesizeOverrideCount + n := by
  induction n generalizing st with
  | zero => rfl
  | succ n ih =>
    rw [adjustIter, ih, adjustProbeSize_probesizeOverrideCount]
    omega

theorem adjustIter_probesizeOverrideTimeout (h n : Nat) (st : DelegateState) :
    (adjustIter h (n + 1) st).probesizeOverrideTimeout =
      if st.probesizeOverrideCount + (n + 1) < 10 then some (1000 * 60 * 10) else none := by
  induction n generalizing st with
  | zero => simpa [adjustIter] using adjustProbeSize_probesizeOverrideTimeout st h
  | succ n ih =>
    rw [show adjustIter h (n + 1 + 1) st = adjustIter h (n + 1) (adjustProbeSize st h).1 from rfl,
      ih, adjustProbeSize_probesizeOverrideCount]
    have : st.probesizeOverrideCount + 1 + (n + 1) = st.probesizeOverrideCount + (n + 1 + 1) := by omega
    rw [this]

theorem min_mul_two_pow (a c m : Nat) :
    min (min a c * 2 ^ m) c = min (a * 2 ^ m) c := by
  have hpow : 1 ≤ 2 ^ m := Nat.one_le_two_pow
  rcases Nat.le_total a c with hac | hca
  · rw [Nat.min_eq_left hac]
  · have h2 : c ≤ c * 2 ^ m := by
      calc c = c * 1 := by omega
        _ ≤ c * 2 ^ m := Nat.mul_le_mul_left c hpow
    have h3 : c ≤ a * 2 ^ m := by
      calc c ≤ a := hca
        _ = a * 1 := by omega
        _ ≤ a * 2 ^ m := Nat.mul_le_mul_left a hpow
    rw [Nat.min_eq_right hca, Nat.min_eq_right h2, Nat.min_eq_right h3]

theorem probesize_adjustIter (h n : Nat) (hn : 1 ≤ n) (st : DelegateState) :
    probesize (adjustIter h n st) h = min (probesize st h * 2 ^ n) 5000000 := by
  induction n generalizing st with
  | zero => omega
  | succ n ih =>
    rcases Nat.eq_zero_or_pos n with h0 | hpos
    · subst h0
      rw [show adjustIter h 1 st = (adjustProbeSize st h).1 from rfl,
        probesize_adjustProbeSize, pow_one]
    · rw [show adjustIter h (n + 1) st = adjustIter h n (adjustProbeSize st h).1 from rfl,
        ih hpos, probesize_adjustProbeSize]
      rw [min_mul_two_pow, Nat.mul_assoc, ← pow_succ']

theorem probesize_pos (st : DelegateState) (h : Nat) (hpos : 0 < h) :
    0 < probesize st h := by
  unfold probesize
  split
  · next hc => exact Nat.pos_of_ne_zero hc
  · exact hpos

theorem adjustProbeSize_override_pos (st : DelegateState) (h : Nat) (hpos : 0 < h) :
    0 < (adjustProbeSize st h).1.probesizeOverride := by
  rw [adjustProbeSize_probesizeOverride]
  have := probesize_pos st h hpos
  rw [Nat.min_def]
  split <;> omega

theorem adjustIter_override_pos (h n : Nat) (st : DelegateState) (hpos : 0 < h)
    (hn : 0 < n) : 0 < (adjustIter h n st).probesizeOverride := by
  induction n generalizing st with
  | zero => omega
  | succ n ih =>
    rcases Nat.eq_zero_or_pos n with h0 | hn2
    · subst h0
      exact adjustProbeSize_override_pos st h hpos
    · exact ih (adjustProbeSize st h).1 hn2

/-- Claim C4: starting from a zero failure counter, ten consecutive
adjustProbeSize calls leave the probe-size override permanently set: after
the tenth call no decay timer is armed and the (nonzero) override survives a
timer-firing attempt unchanged; after any smaller positive number of calls a
ten minute decay timer is armed whose firing resets the override to zero. -/
theorem adjustProbeSize_ten_failures_permanent (st : DelegateState) (h : Nat)
    (hcount : st.probesizeOverrideCount = 0) (hpos : 0 < h) :
    (adjustIter h 10 st).probesizeOverrideTimeout = none ∧
    (adjustIter h 10 st).probesizeOverride ≠ 0 ∧
    probesizeDecayFire (adjustIter h 10 st) = adjustIter h 10 st ∧
    ∀ k, 0 < k → k < 10 →
      (adjustIter h k st).probesizeOverrideTimeout = some (1000 * 60 * 10) ∧
      (probesizeDecayFire (adjustIter h k st)).probesizeOverride = 0 := by
  have h10 : (adjustIter h 10 st).probesizeOverrideTimeout = none := by
    rw [show (10 : Nat) = 9 + 1 from rfl, adjustIter_probesizeOverrideTimeout, hcount]
    simp
  refine ⟨h10, ?_, ?_, ?_⟩
  · have := adjustIter_override_pos h 10 st hpos (by omega)
    omega
  · unfold probesizeDecayFire
    rw [h10]
    simp
  · intro k hk1 hk2
    obtain ⟨m, rfl⟩ : ∃ m, k = m + 1 := ⟨k - 1, by omega⟩
    have hT : (adjustIter h (m + 1) st).probesizeOverrideTimeout = some (1000 * 60 * 10) := by
      rw [adjustIter_probesizeOverrideTimeout, hcount]
      simp only [Nat.zero_add]
      rw [if_pos hk2]
    refine ⟨hT, ?_⟩
    unfold probesizeDecayFire
    rw [hT]
    simp

/-- Witness for claim C4 at a concrete camera hint of 3. -/
theorem adjustProbeSize_ten_failures_permanent_witness :
    (adjustIter 3 10 (initState false)).probesizeOverrideTimeout = none ∧
    (adjustIter 3 10 (initState false)).probesizeOverride ≠ 0 ∧
    probesizeDecayFire (adjustIter 3 10 (initState false)) = adjustIter 3 10 (initState false) ∧
    ∀ k, 0 < k → k < 10 →
      (adjustIter 3 k (initState false)).probesizeOverrideTimeout = some (1000 * 60 * 10) ∧
      (probesizeDecayFire (adjustIter 3 k (initState false))).probesizeOverride = 0 :=
  adjustProbeSize_ten_failures_permanent (initState false) 3 rfl (by decide)

/-- Claim C5: each adjustProbeSize call increments the failure counter and
sets the override to twice the current effective probe size capped at
5000000; consequently, starting from a zero override with camera hint h, the
effective probe size after n successive calls is min (h * 2 ^ n) 5000000. -/
theorem adjustProbeSize_doubling (st : DelegateState) (h n : Nat)
    (h0 : st.probesizeOverride = 0) (hn : 1 ≤ n) :
    (∀ s : DelegateState,
      (adjustProbeSize s h).1.probesizeOverrideCount = s.probesizeOverrideCount + 1 ∧
      (adjustProbeSize s h).1.probesizeOverride = min (probesize s h * 2) 5000000) ∧
    probesize (adjustIter h n st) h = min (h * 2 ^ n) 5000000 := by
  constructor
  · intro s
    exact ⟨adjustProbeSize_probesizeOverrideCount s h, adjustProbeSize_probesizeOverride s h⟩
  · have hbase : probesize st h = h := by
      rw [probesize_def, h0]
      simp
    rw [probesize_adjustIter h n hn st, hbase]

/-- Witness for claim C5 with hint 100 and three calls: the effective probe
size becomes 800. -/
theorem adjustProbeSize_doubling_witness :
    ((∀ s : DelegateState,
      (adjustProbeSize s 100).1.probesizeOverrideCount = s.probesizeOverrideCount + 1 ∧
      (adjustProbeSize s 100).1.probesizeOverride = min (probesize s 100 * 2) 5000000) ∧
    probesize (adjustIter 100 3 (initState false)) 100 = min (100 * 2 ^ 3) 5000000) ∧
    min (100 * 2 ^ 3) 5000000 = 800 :=
  ⟨adjustProbeSize_doubling (initState false) 100 3 rfl (by decide), by decide⟩

/-- Does the event carry an adjustProbeSize call? -/
def isAdjustEvent : Event → Bool
  | Event.adjustProbe _ => true
  | _ => false

theorem startStream_probesizeOverrideCount (st : DelegateState)
    (request : StartStreamRequest) (env : StartEnv) :
    (startStream st request env).1.probesizeOverrideCount = st.probesizeOverrideCount := by
  unfold startStream
  cases hL : lookupStr st.pendingSessions request.sessionID with
  | none => rfl
  | some si =>
    dsimp only
    repeat' (first | rfl | split)

theorem stopStream_probesizeOverrideCount (st : DelegateState) (id : String)
    (rec : Bool) :
    (stopStream noFault st id rec).1.probesizeOverrideCount = st.probesizeOverrideCount := by
  rw [stopStream_noFault_eq]
  unfold stopRestore stopAfterDeletes
  repeat' (first | rfl | split)

theorem stepState_probesizeOverrideCount (st : DelegateState) (e : Event) :
    (stepState st e).probesizeOverrideCount =
      st.probesizeOverrideCount + (if isAdjustEvent e then 1 else 0) := by
  cases e with
  | prepare request env => rfl
  | start request env =>
    simp [stepState, isAdjustEvent, startStream_probesizeOverrideCount]
  | reconfigure request =>
    show (reconfigureStream st request).1.probesizeOverrideCount = _
    unfold reconfigureStream
    cases st.rtspEntry <;> simp [isAdjustEvent]
  | stop sessionId rec =>
    simp [stepState, isAdjustEvent, stopStream_probesizeOverrideCount]
  | adjustProbe h =>
    simp [stepState, isAdjustEvent, adjustProbeSize_probesizeOverrideCount]
  | probeDecayFire =>
    show (probesizeDecayFire st).probesizeOverrideCount = _
    unfold probesizeDecayFire
    split <;> simp [isAdjustEvent]

theorem runEvents_probesizeOverrideCount (evs : List Event) :
    ∀ st : DelegateState,
      (runEvents st evs).probesizeOverrideCount =
        st.probesizeOverrideCount + countAdjust evs := by
  induction evs with
  | nil => intro st; simp [runEvents, countAdjust]
  | cons e es ih =>
    intro st
    rw [runEvents, ih, stepState_probesizeOverrideCount]
    unfold countAdjust isAdjustEvent
    cases e with
    | prepare request env => simp [List.countP_cons]
    | start request env => simp [List.countP_cons]
    | reconfigure request => simp [List.countP_cons]
    | stop sessionId rec => simp [List.countP_cons]
    | adjustProbe h =>
      simp [List.countP_cons]
      omega
    | probeDecayFire => simp [List.countP_cons]

/-- Claim C9: the probe-size failure counter never decreases under any
operation of the delegate (the decay timer firing included), the counter
after a run equals the number of adjustProbeSize calls in the run, and once
at least ten adjustProbeSize calls have accumulated, even separated by
decays, the next adjustProbeSize call arms no decay timer, making the
override permanent. -/
theorem probesizeOverrideCount_monotone (evs : List Event) (st0 : DelegateState)
    (hint : Nat) (h0 : st0.probesizeOverrideCount = 0) (h9 : 9 ≤ countAdjust evs) :
    (∀ (st : DelegateState) (e : Event),
      st.probesizeOverrideCount ≤ (stepState st e).probesizeOverrideCount) ∧
    (runEvents st0 evs).probesizeOverrideCount = countAdjust evs ∧
    (adjustProbeSize (runEvents st0 evs) hint).1.probesizeOverrideTimeout = none := by
  refine ⟨?_, ?_, ?_⟩
  · intro st e
    rw [stepState_probesizeOverrideCount]
    omega
  · rw [runEvents_probesizeOverrideCount, h0]
    omega
  · rw [adjustProbeSize_probesizeOverrideTimeout,
      runEvents_probesizeOverrideCount, h0]
    have : ¬ (0 + countAdjust evs + 1 < 10) := by omega
    rw [if_neg this]

/-- Witness for claim C9: nine adjustProbeSize events separated by decay
firings still leave the next call permanent. -/
theorem probesizeOverrideCount_monotone_witness :
    (∀ (st : DelegateState) (e : Event),
      st.probesizeOverrideCount ≤ (stepState st e).probesizeOverrideCount) ∧
    (runEvents (initState false)
      [Event.adjustProbe 7, Event.probeDecayFire, Event.adjustProbe 7,
       Event.adjustProbe 7, Event.probeDecayFire, Event.adjustProbe 7,
       Event.adjustProbe 7, Event.adjustProbe 7, Event.adjustProbe 7,
       Event.adjustProbe 7, Event.adjustProbe 7]).probesizeOverrideCount =
      countAdjust
        [Event.adjustProbe 7, Event.probeDecayFire, Event.adjustProbe 7,
         Event.adjustProbe 7, Event.probeDecayFire, Event.adjustProbe 7,
         Event.adjustProbe 7, Event.adjustProbe 7, Event.adjustProbe 7,
         Event.adjustProbe 7, Event.adjustProbe 7] ∧
    (adjustProbeSize (runEvents (initState false)
      [Event.adjustProbe 7, Event.probeDecayFire, Event.adjustProbe 7,
       Event.adjustProbe 7, Event.probeDecayFire, Event.adjustProbe 7,
       Event.adjustProbe 7, Event.adjustProbe 7, Event.adjustProbe 7,
       Event.adjustProbe 7, Event.adjustProbe 7]) 7).1.probesizeOverrideTimeout = none :=
  probesizeOverrideCount_monotone _ (initState false) 7 rfl (by decide)

theorem stopRestore_ongoingSessions (st : DelegateState) (rec : Bool) :
    (stopRestore st rec).1.ongoingSessions = st.ongoingSessions := by
  unfold stopRestore
  repeat' (first | rfl | split)

theorem stopRestore_pendingSessions (st : DelegateState) (rec : Bool) :
    (stopRestore st rec).1.pendingSessions = st.pendingSessions := by
  unfold stopRestore
  repeat' (first | rfl | split)

theorem stopRestore_rtspEntry (st : DelegateState) (rec : Bool) :
    (stopRestore st rec).1.rtspEntry = st.rtspEntry := by
  unfold stopRestore
  repeat' (first | rfl | split)

theorem stopStream_ongoingSessions (st : DelegateState) (id : String) (rec : Bool) :
    (stopStream noFault st id rec).1.ongoingSessions = eraseStr st.ongoingSessions id := by
  rw [stopStream_noFault_eq, stopRestore_ongoingSessions]
  rfl

theorem stopStream_pendingSessions (st : DelegateState) (id : String) (rec : Bool) :
    (stopStream noFault st id rec).1.pendingSessions = eraseStr st.pendingSessions id := by
  rw [stopStream_noFault_eq, stopRestore_pendingSessions]
  rfl

/-- The port reservations that stopStream is expected to free for a session
id: those of the ongoing record and those of a still-pending record. -/
def trackedPorts (st : DelegateState) (id : String) : List Int :=
  (match lookupStr st.ongoingSessions id with
   | some s => s.rtpPortReservations
   | none => []) ++
  (match lookupStr st.pendingSessions id with
   | some si => si.rtpPortReservations
   | none => [])

/-- stopStream under the no-fault semantics frees every reserved port held
for the id by either record. -/
theorem stopStream_frees_trackedPorts (st : DelegateState) (id : String) (rec : Bool) :
    ∀ p ∈ trackedPorts st id, Effect.freePort p ∈ (stopStream noFault st id rec).2 := by
  intro p hp
  rw [stopStream_noFault_eq]
  unfold trackedPorts at hp
  rw [List.mem_append] at hp
  rcases hp with hp | hp
  · cases hO : lookupStr st.ongoingSessions id with
    | none => rw [hO] at hp; simp at hp
    | some s =>
      rw [hO] at hp
      dsimp only at hp
      have hmem : Effect.freePort p ∈ stopTraceOngoing st id := by
        simp only [stopTraceOngoing, hO]
        exact List.mem_append_right _ (List.mem_map_of_mem _ hp)
      exact List.mem_append_left _ (List.mem_append_left _ hmem)
  · cases hP : lookupStr st.pendingSessions id with
    | none => rw [hP] at hp; simp at hp
    | some si =>
      rw [hP] at hp
      dsimp only at hp
      have hmem : Effect.freePort p ∈ stopTracePending st id := by
        simp only [stopTracePending, hP]
        exact List.mem_map_of_mem _ hp
      exact List.mem_append_left _ (List.mem_append_right _ hmem)

/-- Claim C1 (amended): when no teardown step throws, stopStream performs the
complete teardown: it removes both records for the id, frees every reserved
port of both records, stops every transcoder handle and closes the demuxer of
the ongoing record; and any exception thrown by a teardown step is caught by
the surrounding try/catch and logged instead of propagating, although, as the
counterexample shows, the remaining steps are then skipped. -/
theorem stopStream_teardown_complete (st : DelegateState) (id : String) (rec : Bool) :
    lookupStr (stopStream noFault st id rec).1.ongoingSessions id = none ∧
    lookupStr (stopStream noFault st id rec).1.pendingSessions id = none ∧
    (∀ p ∈ trackedPorts st id, Effect.freePort p ∈ (stopStream noFault st id rec).2) ∧
    (∀ s, lookupStr st.ongoingSessions id = some s →
      (∀ args ∈ s.ffmpeg, Effect.stopProcess args ∈ (stopStream noFault st id rec).2) ∧
      (s.rtpDemuxer = true → Effect.closeDemuxer ∈ (stopStream noFault st id rec).2)) ∧
    (∀ faulty, (stopStreamBody faulty st id rec).thrown = true →
      (stopStream faulty st id rec).2 =
        (stopStreamBody faulty st id rec).trace ++ [Effect.logError]) := by
  refine ⟨?_, ?_, ?_, ?_, ?_⟩
  · rw [stopStream_ongoingSessions]
    exact lookupStr_eraseStr_self st.ongoingSessions id
  · rw [stopStream_pendingSessions]
    exact lookupStr_eraseStr_self st.pendingSessions id
  · exact stopStream_frees_trackedPorts st id rec
  · intro s hO
    rw [stopStream_noFault_eq]
    constructor
    · intro args hargs
      have hmem : Effect.stopProcess args ∈ stopTraceOngoing st id := by
        simp only [stopTraceOngoing, hO]
        exact List.mem_append_left _ (List.mem_append_left _
          (List.mem_append_left _ (List.mem_map_of_mem _ hargs)))
      exact List.mem_append_left _ (List.mem_append_left _ hmem)
    · intro hD
      have hmem : Effect.closeDemuxer ∈ stopTraceOngoing st id := by
        simp only [stopTraceOngoing, hO, hD]
        exact List.mem_append_left _ (List.mem_append_left _
          (List.mem_append_right _ (List.mem_cons_self _ _)))
      exact List.mem_append_left _ (List.mem_append_left _ hmem)
  · intro faulty hth
    unfold stopStream
    rw [if_pos hth]

/-- Concrete ongoing session for the claim C1 witness. -/
def w1Session : OngoingSession :=
  { ffmpeg := [["ffmpeg", "-i", "u"]], rtpDemuxer := true, rtpPortReservations := [20, 21] }

/-- Concrete delegate state for the claim C1 witness. -/
def w1State : DelegateState :=
  { initState false with ongoingSessions := [("w", w1Session)] }

/-- Witness for claim C1 at a concrete state with one ongoing session. -/
theorem stopStream_teardown_complete_witness :
    Effect.freePort 20 ∈ (stopStream noFault w1State "w" false).2 ∧
    Effect.stopProcess ["ffmpeg", "-i", "u"] ∈ (stopStream noFault w1State "w" false).2 ∧
    Effect.closeDemuxer ∈ (stopStream noFault w1State "w" false).2 :=
  ⟨(stopStream_teardown_complete w1State "w" false).2.2.1 20 (by decide),
   ((stopStream_teardown_complete w1State "w" false).2.2.2.1 w1Session (by decide)).1
     ["ffmpeg", "-i", "u"] (by decide),
   ((stopStream_teardown_complete w1State "w" false).2.2.2.1 w1Session (by decide)).2
     (by decide)⟩

/-- Concrete ongoing session for the claim C1 counterexample. -/
def c1Session : OngoingSession :=
  { ffmpeg := [["ffmpeg"]], rtpDemuxer := true, rtpPortReservations := [10, 11] }

/-- Concrete delegate state for the claim C1 counterexample. -/
def c1State : DelegateState :=
  { initState false with ongoingSessions := [("s", c1Session)] }

/-- Fault assignment for the claim C1 counterexample: stopping a transcoder
process throws. -/
def c1Faulty : Effect → Bool :=
  fun e => match e with | Effect.stopProcess _ => true | _ => false

/-- Claim C1 counterexample: with one ongoing session holding a demuxer and
two reserved ports, a throw in the very first teardown step (stopping the
transcoder process) aborts the try block: the demuxer is not closed, no port
is freed, and the ongoing record is not removed, contradicting the claim that
every later cleanup step still runs. -/
theorem stopStream_throw_skips_cleanup_cex :
    Effect.freePort 10 ∉ (stopStream c1Faulty c1State "s" false).2 ∧
    Effect.closeDemuxer ∉ (stopStream c1Faulty c1State "s" false).2 ∧
    lookupStr (stopStream c1Faulty c1State "s" false).1.ongoingSessions "s" = some c1Session := by
  decide

/-- The effect kinds the spec counts as observable side effects of teardown;
log lines are not among them. -/
def observableEffect : Effect → Bool
  | Effect.logInfo => false
  | Effect.logError => false
  | _ => true

/-- The observable part of an effect trace. -/
def observable (tr : List Effect) : List Effect :=
  tr.filter observableEffect

theorem stopRestore_savedBitrate_empty (st : DelegateState)
    (h : st.ongoingSessions.isEmpty = true) :
    (stopRestore st false).1.savedBitrate = 0 := by
  unfold stopRestore
  rw [if_pos h]
  simp only [Bool.false_eq_true, if_false]
  by_cases hs : st.savedBitrate ≠ 0
  · rw [if_pos hs]
  · rw [if_neg hs]
    push_neg at hs
    exact hs

/-- Claim C3 (amended): a second stopStream call for the same id leaves the
state unchanged, and its observable side effects are empty unless the ongoing
table is empty and the HKSV recording buffer is active, in which case the
second call performs one additional timeshift-buffer restart. In particular
stopStream is safe (and effect-free apart from that restart) when no session
exists for the id. -/
theorem stopStream_idempotent_amended (st : DelegateState) (id : String) (rec : Bool) :
    (stopStream noFault (stopStream noFault st id rec).1 id rec).1 =
      (stopStream noFault st id rec).1 ∧
    observable (stopStream noFault (stopStream noFault st id rec).1 id rec).2 =
      (if (stopStream noFault st id rec).1.ongoingSessions.isEmpty && rec then
        [Effect.restartTimeshifting] else []) := by
  have hOng : (stopStream noFault st id rec).1.ongoingSessions =
      eraseStr st.ongoingSessions id := stopStream_ongoingSessions st id rec
  have hPend : (stopStream noFault st id rec).1.pendingSessions =
      eraseStr st.pendingSessions id := stopStream_pendingSessions st id rec
  have hLO : lookupStr (stopStream noFault st id rec).1.ongoingSessions id = none := by
    rw [hOng]; exact lookupStr_eraseStr_self _ _
  have hLP : lookupStr (stopStream noFault st id rec).1.pendingSessions id = none := by
    rw [hPend]; exact lookupStr_eraseStr_self _ _
  have hTO : stopTraceOngoing (stopStream noFault st id rec).1 id = [] := by
    unfold stopTraceOngoing; rw [hLO]
  have hTP : stopTracePending (stopStream noFault st id rec).1 id = [] := by
    unfold stopTracePending; rw [hLP]
  have hA : stopAfterDeletes (stopStream noFault st id rec).1 id =
      (stopStream noFault st id rec).1 := by
    unfold stopAfterDeletes
    rw [hOng, hPend, eraseStr_eraseStr, eraseStr_eraseStr, ← hOng, ← hPend]
  rw [stopStream_noFault_eq (stopStream noFault st id rec).1 id rec, hA, hTO, hTP]
  set st1 := (stopStream noFault st id rec).1 with hst1
  by_cases hE : st1.ongoingSessions.isEmpty
  · by_cases hR : rec
    · unfold stopRestore
      rw [if_pos hE, if_pos hR, hE, hR]
      exact ⟨rfl, rfl⟩
    · have hsb : st1.savedBitrate = 0 := by
        rw [hst1, stopStream_noFault_eq]
        have hRE : rec = false := by simpa using hR
        rw [hRE]
        apply stopRestore_savedBitrate_empty
        have : (stopRestore (stopAfterDeletes st id) false).1.ongoingSessions =
            (stopAfterDeletes st id).ongoingSessions := stopRestore_ongoingSessions _ _
        rw [← this]
        rw [hst1, stopStream_noFault_eq, hRE] at hE
        exact hE
      unfold stopRestore
      have hRE : rec = false := by simpa using hR
      rw [if_pos hE, hRE]
      simp only [Bool.false_eq_true, if_false]
      rw [if_neg (by rw [hsb]; simp), hE]
      simp [observable]
  · unfold stopRestore
    rw [if_neg hE]
    have hEb : st1.ongoingSessions.isEmpty = false := by
      simpa using hE
    rw [hEb]
    simp [observable]

/-- Concrete ongoing session for the claim C3 counterexample. -/
def c3Session : OngoingSession :=
  { ffmpeg := [], rtpDemuxer := false, rtpPortReservations := [] }

/-- Concrete delegate state for the claim C3 counterexample: one ongoing
session on a camera with an actively recording HKSV buffer. -/
def c3State : DelegateState :=
  { initState true with ongoingSessions := [("s", c3Session)] }

/-- Claim C3 counterexample: with the HKSV recording buffer active, stopping
the same session twice restarts the timeshift buffer twice, while stopping it
once restarts it once; the observable side effects of the two call sequences
differ, so stop-twice is not equivalent to stop-once. -/
theorem stopStream_not_idempotent_cex :
    observable ((stopStream noFault c3State "s" true).2 ++
        (stopStream noFault (stopStream noFault c3State "s" true).1 "s" true).2) ≠
      observable (stopStream noFault c3State "s" true).2 := by
  decide

/-- Is the effect a setBitrate call to the camera? -/
def isSetBitrateEffect : Effect → Bool
  | Effect.setBitrate _ _ => true
  | _ => false

theorem filter_isSetBitrate_map_stopProcess (l : List (List String)) :
    (l.map Effect.stopProcess).filter isSetBitrateEffect = [] := by
  induction l with
  | nil => rfl
  | cons a l ih => simp [List.filter_cons, isSetBitrateEffect, ih]

theorem filter_isSetBitrate_map_freePort (l : List Int) :
    (l.map Effect.freePort).filter isSetBitrateEffect = [] := by
  induction l with
  | nil => rfl
  | cons a l ih => simp [List.filter_cons, isSetBitrateEffect, ih]

theorem filter_isSetBitrate_stopTraceOngoing (st : DelegateState) (id : String) :
    (stopTraceOngoing st id).filter isSetBitrateEffect = [] := by
  unfold stopTraceOngoing
  cases lookupStr st.ongoingSessions id with
  | none => rfl
  | some s =>
    by_cases hD : s.rtpDemuxer <;>
      simp [hD, List.filter_append, List.filter_cons, isSetBitrateEffect,
        filter_isSetBitrate_map_stopProcess, filter_isSetBitrate_map_freePort]

theorem filter_isSetBitrate_stopTracePending (st : DelegateState) (id : String) :
    (stopTracePending st id).filter isSetBitrateEffect = [] := by
  unfold stopTracePending
  cases lookupStr st.pendingSessions id with
  | none => rfl
  | some si => simp [filter_isSetBitrate_map_freePort]

/-- With nothing saved, stopStream makes no setBitrate call at all. -/
theorem stopStream_no_restore_of_saved_zero (st : DelegateState) (id : String)
    (rec : Bool) (h : st.savedBitrate = 0) :
    (stopStream noFault st id rec).2.filter isSetBitrateEffect = [] := by
  rw [stopStream_noFault_eq, List.filter_append, List.filter_append,
    filter_isSetBitrate_stopTraceOngoing, filter_isSetBitrate_stopTracePending]
  simp only [List.nil_append, List.append_nil]
  have hA : (stopAfterDeletes st id).savedBitrate = 0 := h
  unfold stopRestore
  by_cases hE : (stopAfterDeletes st id).ongoingSessions.isEmpty
  · rw [if_pos hE]
    by_cases hR : rec
    · rw [if_pos hR]
      simp [isSetBitrateEffect]
    · rw [if_neg hR, if_neg (by rw [hA]; simp)]
      rfl
  · rw [if_neg hE]
    rfl

/-- Claim C2 (amended): when the last ongoing session of the camera is
stopped with the recording buffer inactive, a saved nonzero bitrate B is
restored through exactly one setBitrate call carrying B, provided the rtsp
entry of the delegate is still set (a later failed profile lookup clears it
and suppresses the restore call, as the counterexample shows); the saved
value is cleared so that no subsequent stop issues any setBitrate call. When
the recording buffer is active, the timeshift buffer is restarted instead, no
setBitrate call is made and the saved value is kept. -/
theorem savedBitrate_restore_amended (st : DelegateState) (id : String)
    (s : OngoingSession) (entry : RtspEntry) (B : Int)
    (hOne : st.ongoingSessions = [(id, s)]) (hB : st.savedBitrate = B)
    (hBne : B ≠ 0) (hE : st.rtspEntry = some entry) :
    ((stopStream noFault st id false).2.filter isSetBitrateEffect =
        [Effect.setBitrate entry.channelId B] ∧
      (stopStream noFault st id false).1.savedBitrate = 0 ∧
      ∀ id2 rec2,
        (stopStream noFault (stopStream noFault st id false).1 id2 rec2).2.filter
          isSetBitrateEffect = []) ∧
    ((stopStream noFault st id true).2.filter isSetBitrateEffect = [] ∧
      Effect.restartTimeshifting ∈ (stopStream noFault st id true).2 ∧
      (stopStream noFault st id true).1.savedBitrate = B) := by
  have hErase : eraseStr st.ongoingSessions id = [] := by
    rw [hOne]
    simp [eraseStr]
  have hEmp : (stopAfterDeletes st id).ongoingSessions.isEmpty = true := by
    show (eraseStr st.ongoingSessions id).isEmpty = true
    rw [hErase]
    rfl
  have hre : (stopAfterDeletes st id).rtspEntry = some entry := hE
  have hsb : (stopAfterDeletes st id).savedBitrate = B := hB
  have hR1 : stopRestore (stopAfterDeletes st id) false =
      ({ stopAfterDeletes st id with savedBitrate := 0 },
       [Effect.setBitrate entry.channelId B]) := by
    unfold stopRestore
    rw [if_pos hEmp]
    simp only [Bool.false_eq_true, if_false]
    rw [if_pos (by rw [hsb]; exact hBne)]
    simp [hre, hsb]
  have hR2 : stopRestore (stopAfterDeletes st id) true =
      (stopAfterDeletes st id, [Effect.restartTimeshifting]) := by
    unfold stopRestore
    rw [if_pos hEmp]
    simp
  have hsaved0 : (stopStream noFault st id false).1.savedBitrate = 0 := by
    rw [stopStream_noFault_eq, hR1]
  refine ⟨⟨?_, hsaved0, ?_⟩, ?_, ?_, ?_⟩
  · rw [stopStream_noFault_eq, hR1, List.filter_append, List.filter_append,
      filter_isSetBitrate_stopTraceOngoing, filter_isSetBitrate_stopTracePending]
    simp [isSetBitrateEffect]
  · intro id2 rec2
    exact stopStream_no_restore_of_saved_zero _ id2 rec2 hsaved0
  · rw [stopStream_noFault_eq, hR2, List.filter_append, List.filter_append,
      filter_isSetBitrate_stopTraceOngoing, filter_isSetBitrate_stopTracePending]
    simp [isSetBitrateEffect]
  · rw [stopStream_noFault_eq, hR2]
    exact List.mem_append_right _ (List.mem_cons_self _ _)
  · rw [stopStream_noFault_eq, hR2]
    exact hsb

/-- Concrete ongoing session for the claim C2 witness. -/
def w2Session : OngoingSession :=
  { ffmpeg := [["ffmpeg"]], rtpDemuxer := false, rtpPortReservations := [40] }

/-- Concrete RTSP entry for the claim C2 witness. -/
def w2Entry : RtspEntry :=
  { channelId := 1, fps := 30, bitrate := 2000000, url := "rtsp://cam/1", name := "High" }

/-- Concrete delegate state for the claim C2 witness: one ongoing session,
saved bitrate 3000000, rtsp entry set. -/
def w2State : DelegateState :=
  { initState false with
    ongoingSessions := [("a", w2Session)]
    savedBitrate := 3000000
    rtspEntry := some w2Entry }

/-- Witness for claim C2 with the saved bitrate 3000000 of the spec. -/
theorem savedBitrate_restore_amended_witness :
    ((stopStream noFault w2State "a" false).2.filter isSetBitrateEffect =
        [Effect.setBitrate w2Entry.channelId 3000000] ∧
      (stopStream noFault w2State "a" false).1.savedBitrate = 0 ∧
      ∀ id2 rec2,
        (stopStream noFault (stopStream noFault w2State "a" false).1 id2 rec2).2.filter
          isSetBitrateEffect = []) ∧
    ((stopStream noFault w2State "a" true).2.filter isSetBitrateEffect = [] ∧
      Effect.restartTimeshifting ∈ (stopStream noFault w2State "a" true).2 ∧
      (stopStream noFault w2State "a" true).1.savedBitrate = 3000000) :=
  savedBitrate_restore_amended w2State "a" w2Session w2Entry 3000000 rfl rfl
    (by decide) rfl

/-- RTSP entry used by the claim C2 counterexample run. -/
def c2Entry : RtspEntry :=
  { channelId := 0, fps := 30, bitrate := 2000000, url := "rtsp://cam/0", name := "High" }

/-- Prepare environment for the claim C2 counterexample run. -/
def c2PrepEnv : PrepareEnv :=
  { reservoir := fun n => (50000 : Int) + 2 * n
    twoWayAudio := false
    audioEncoderNonempty := false
    audioSSRC := 1
    videoSSRC := 2 }

/-- Prepare request for the claim C2 counterexample run. -/
def c2PrepReq (id : String) : PrepareStreamRequest :=
  { sessionID := id
    targetAddress := "192.168.1.10"
    addressVersion := "ipv4"
    audio := { srtpCryptoSuite := 0, srtp_key := [1], srtp_salt := [2], port := 4000 }
    video := { srtpCryptoSuite := 0, srtp_key := [3], srtp_salt := [4], port := 4002 } }

/-- Start request for the claim C2 counterexample run. -/
def c2StartReq (id : String) : StartStreamRequest :=
  { sessionID := id
    audio := { packet_time := 20, pt := 110, sample_rate := 16, max_bit_rate := 24, channel := 1 }
    video := { width := 1280, height := 720, fps := 30, max_bit_rate := 2000, pt := 99,
               profile := 1, level := 1 } }

/-- Start environment for the first, successful start of the claim C2
counterexample run: online camera, profile found, current bitrate 3000000. -/
def c2StartEnvOk : StartEnv :=
  { isOnline := true
    findRtsp := some c2Entry
    getBitrate := 3000000
    hints := { transcode := false, transcodeHighLatency := false, hardwareTranscoding := false,
               twoWayAudio := false, probesize := 16, audioFilterNoise := false }
    ffmpegOptions := { videoDecoder := [], audioEncoder := [], audioDecoder := "aac",
                       hostSystemMaxPixels := 0, streamEncoderArgs := [] }
    verboseFfmpeg := false
    enableDetailedLogging := false
    cameraName := "Cam"
    afOptions := ""
    rtpEventArrives := true
    demuxerRunningAfterRtp := true }

/-- Start environment for the second, failing start of the claim C2
counterexample run: the profile lookup finds nothing. -/
def c2StartEnvNoRtsp : StartEnv :=
  { c2StartEnvOk with findRtsp := none }

/-- The delegate state of the claim C2 counterexample run: session s1
started successfully saving bitrate 3000000, then a second start attempt for
s2 failed its profile lookup, which reset rtspEntry to null. -/
def c2State : DelegateState :=
  runEvents (initState false)
    [Event.prepare (c2PrepReq "s1") c2PrepEnv,
     Event.start (c2StartReq "s1") c2StartEnvOk,
     Event.prepare (c2PrepReq "s2") c2PrepEnv,
     Event.start (c2StartReq "s2") c2StartEnvNoRtsp]

/-- Claim C2 counterexample: in the reachable state c2State a nonzero bitrate
3000000 was saved at the first session start, the recording buffer is
inactive, and stopping s1 empties the ongoing table, yet no setBitrate call
is made at all (rather than exactly one carrying 3000000), because the failed
second start reset rtspEntry to null; the saved value is still cleared. -/
theorem savedBitrate_restore_lost_cex :
    c2State.savedBitrate = 3000000 ∧
    c2State.ongoingSessions.map Prod.fst = ["s1"] ∧
    c2State.rtspEntry = none ∧
    (stopStream noFault c2State "s1" false).2.filter isSetBitrateEffect = [] ∧
    (stopStream noFault c2State "s1" false).1.savedBitrate = 0 := by
  decide

theorem mem_eraseStr {α : Type} (m : List (String × α)) (k : String)
    (kv : String × α) (h : kv ∈ eraseStr m k) : kv ∈ m ∧ kv.1 ≠ k := by
  unfold eraseStr at h
  rw [List.mem_filter] at h
  refine ⟨h.1, ?_⟩
  have h2 := h.2
  simpa using h2

/-- Recursive form of the shutdown loop: stop each id of the list in order,
accumulating states and traces. -/
def stopAll (rec : Bool) : List String → DelegateState × List Effect → DelegateState × List Effect
  | [], acc => acc
  | id :: L, acc =>
    stopAll rec L ((stopStream noFault acc.1 id rec).1, acc.2 ++ (stopStream noFault acc.1 id rec).2)

theorem shutdown_eq_stopAll (st : DelegateState) (rec : Bool) :
    shutdown st rec = stopAll rec (st.ongoingSessions.map Prod.fst) (st, []) := by
  unfold shutdown
  generalize st.ongoingSessions.map Prod.fst = L
  generalize (st, ([] : List Effect)) = acc
  induction L generalizing acc with
  | nil => rfl
  | cons a L ih =>
    rw [List.foldl_cons, stopAll]
    exact ih _

theorem stopAll_ongoing_empty (rec : Bool) (L : List String) :
    ∀ (st : DelegateState) (tr : List Effect),
      (∀ kv ∈ st.ongoingSessions, kv.1 ∈ L) →
      (stopAll rec L (st, tr)).1.ongoingSessions = [] := by
  induction L with
  | nil =>
    intro st tr hcov
    cases hO : st.ongoingSessions with
    | nil => simp [stopAll, hO]
    | cons kv rest =>
      exact absurd (hcov kv (by rw [hO]; exact List.mem_cons_self _ _)) (by simp)
  | cons a L ih =>
    intro st tr hcov
    rw [stopAll]
    apply ih
    intro kv hkv
    rw [stopStream_ongoingSessions] at hkv
    rcases mem_eraseStr _ _ _ hkv with ⟨hmem, hne⟩
    rcases List.mem_cons.mp (hcov kv hmem) with h | h
    · exact absurd h hne
    · exact h

theorem stopAll_trace_mono (rec : Bool) (L : List String) :
    ∀ (acc : DelegateState × List Effect) (e : Effect),
      e ∈ acc.2 → e ∈ (stopAll rec L acc).2 := by
  induction L with
  | nil => intro acc e he; exact he
  | cons a L ih =>
    intro acc e he
    rw [stopAll]
    exact ih _ e (List.mem_append_left _ he)

theorem stopAll_frees_ports (rec : Bool) (L : List String) :
    ∀ (st : DelegateState) (tr : List Effect) (id : String) (s : OngoingSession),
      id ∈ L → lookupStr st.ongoingSessions id = some s →
      ∀ p ∈ s.rtpPortReservations, Effect.freePort p ∈ (stopAll rec L (st, tr)).2 := by
  induction L with
  | nil => intro st tr id s hid; simp at hid
  | cons a L ih =>
    intro st tr id s hid hlook p hp
    by_cases hae : a = id
    · subst hae
      have hfree : Effect.freePort p ∈ (stopStream noFault st a rec).2 := by
        apply stopStream_frees_trackedPorts st a rec p
        unfold trackedPorts
        rw [hlook]
        exact List.mem_append_left _ hp
      rw [stopAll]
      exact stopAll_trace_mono rec L _ _ (List.mem_append_right _ hfree)
    · have hidL : id ∈ L := by
        rcases List.mem_cons.mp hid with h | h
        · exact absurd h.symm hae
        · exact h
      have hlook2 : lookupStr (stopStream noFault st a rec).1.ongoingSessions id = some s := by
        rw [stopStream_ongoingSessions, lookupStr_eraseStr_ne _ id a hae]
        exact hlook
      rw [stopAll]
      exact ih _ _ id s hidL hlook2 p hp

/-- Claim C7 (amended): shutdown stops every ONGOING session id: afterwards
no ongoing record remains and every port reserved by an ongoing record has
been freed. Sessions that are only pending (prepared but never started) are
not visited by shutdown, as the counterexample shows. -/
theorem shutdown_stops_every_ongoing (st : DelegateState) (rec : Bool) :
    (shutdown st rec).1.ongoingSessions = [] ∧
    ∀ id s, lookupStr st.ongoingSessions id = some s →
      ∀ p ∈ s.rtpPortReservations, Effect.freePort p ∈ (shutdown st rec).2 := by
  rw [shutdown_eq_stopAll]
  constructor
  · exact stopAll_ongoing_empty rec _ st [] (fun kv hkv => List.mem_map_of_mem _ hkv)
  · intro id s hlook p hp
    exact stopAll_frees_ports rec _ st [] id s (lookupStr_mem_keys _ _ _ hlook) hlook p hp

/-- Concrete ongoing session for the claim C7 witness. -/
def w7Session : OngoingSession :=
  { ffmpeg := [["ffmpeg"]], rtpDemuxer := false, rtpPortReservations := [30] }

/-- Concrete delegate state for the claim C7 witness. -/
def w7State : DelegateState :=
  { initState false with ongoingSessions := [("x", w7Session)] }

/-- Witness for claim C7 at a concrete state with one ongoing session. -/
theorem shutdown_stops_every_ongoing_witness :
    (shutdown w7State false).1.ongoingSessions = [] ∧
    Effect.freePort 30 ∈ (shutdown w7State false).2 :=
  ⟨(shutdown_stops_every_ongoing w7State false).1,
   (shutdown_stops_every_ongoing w7State false).2 "x" w7Session (by decide) 30 (by decide)⟩

/-- Pending session record for the claim C7 counterexample. -/
def c7PendInfo : SessionInfo :=
  { address := "192.168.1.10"
    addressVersion := "ipv4"
    videoPort := 4002
    videoReturnPort := 50002
    videoCryptoSuite := 0
    videoSRTP := [3, 4]
    videoSSRC := 2
    hasAudioSupport := false
    audioPort := 4000
    audioIncomingRtcpPort := 50000
    audioIncomingRtpPort := -1
    rtpDemuxer := false
    rtpPortReservations := [20]
    talkBack := none
    audioCryptoSuite := 0
    audioSRTP := [1, 2]
    audioSSRC := 1 }

/-- Concrete delegate state for the claim C7 counterexample: one session is
tracked as pending (prepared, never started) and none is ongoing. -/
def c7State : DelegateState :=
  { initState false with pendingSessions := [("p", c7PendInfo)] }

/-- Claim C7 counterexample: shutdown iterates only ongoingSessions, so with
a tracked pending session it stops nothing: the pending record remains and
its reserved port 20 is never freed, contradicting the claim that every
tracked session (pending included) is stopped. -/
theorem shutdown_misses_pending_cex :
    shutdown c7State false = (c7State, []) ∧
    lookupStr (shutdown c7State false).1.pendingSessions "p" = some c7PendInfo ∧
    Effect.freePort 20 ∉ (shutdown c7State false).2 := by
  decide

/-- Claim C8: when startStream is invoked with a session id that has no
pending record, it throws (the TypeError of reading addressVersion on an
undefined record) before the offline check, mutating nothing, performing no
effect and never invoking the callback; the result is the same for every
environment, online or offline. -/
theorem startStream_missing_session_throws (st : DelegateState)
    (request : StartStreamRequest) (env : StartEnv)
    (h : lookupStr st.pendingSessions request.sessionID = none) :
    startStream st request env = (st, [], some StartThrow.sessionInfoUndefined) := by
  unfold startStream
  rw [h]

/-- Start request for the claim C8 witness. -/
def w8Req : StartStreamRequest :=
  { sessionID := "ghost"
    audio := { packet_time := 20, pt := 110, sample_rate := 16, max_bit_rate := 24, channel := 1 }
    video := { width := 1280, height := 720, fps := 30, max_bit_rate := 2000, pt := 99,
               profile := 1, level := 1 } }

/-- Online start environment for the claim C8 witness. -/
def w8EnvOnline : StartEnv :=
  { isOnline := true
    findRtsp := none
    getBitrate := 0
    hints := { transcode := false, transcodeHighLatency := false, hardwareTranscoding := false,
               twoWayAudio := false, probesize := 16, audioFilterNoise := false }
    ffmpegOptions := { videoDecoder := [], audioEncoder := [], audioDecoder := "aac",
                       hostSystemMaxPixels := 0, streamEncoderArgs := [] }
    verboseFfmpeg := false
    enableDetailedLogging := false
    cameraName := "Cam"
    afOptions := ""
    rtpEventArrives := true
    demuxerRunningAfterRtp := true }

/-- Offline start environment for the claim C8 witness. -/
def w8EnvOffline : StartEnv :=
  { w8EnvOnline with isOnline := false }

/-- Witness for claim C8: the throw happens with the camera online and with
it offline alike (the offline check is never reached), with an empty effect
trace, so the callback is never invoked. -/
theorem startStream_missing_session_throws_witness :
    startStream (initState false) w8Req w8EnvOnline =
      (initState false, [], some StartThrow.sessionInfoUndefined) ∧
    startStream (initState false) w8Req w8EnvOffline =
      (initState false, [], some StartThrow.sessionInfoUndefined) :=
  ⟨startStream_missing_session_throws (initState false) w8Req w8EnvOnline rfl,
   startStream_missing_session_throws (initState false) w8Req w8EnvOffline rfl⟩

/-- On the successful path of startStream (pending record found, camera
online, profile found), the saved bitrate after the call is the clamped
camera reading when nothing was saved, and is untouched otherwise. -/
theorem startStream_savedBitrate (st : DelegateState) (request : StartStreamRequest)
    (env : StartEnv) (si : SessionInfo) (entry : RtspEntry)
    (hp : lookupStr st.pendingSessions request.sessionID = some si)
    (hon : env.isOnline = true) (hr : env.findRtsp = some entry) :
    (startStream st request env).1.savedBitrate =
      (if st.savedBitrate = 0 then (if env.getBitrate < 0 then 0 else env.getBitrate)
       else st.savedBitrate) := by
  unfold startStream
  rw [hp]
  dsimp only
  have hon2 : (!env.isOnline) = false := by rw [hon]; rfl
  rw [hon2]
  simp only [Bool.false_eq_true, if_false]
  rw [hr]
  dsimp only
  repeat' (first | rfl | split)

/-- Claim C10: at session start, a nonpositive camera bitrate reading leaves
the saved-bitrate slot at zero (negative readings are clamped, a zero reading
is stored as is), which teardown treats as nothing saved: stopStream then
makes no setBitrate call whatsoever, and a subsequent start with nothing
saved re-reads the camera and stores the new clamped reading. -/
theorem savedBitrate_nonpositive_clamped (st : DelegateState)
    (request : StartStreamRequest) (env : StartEnv) (si : SessionInfo)
    (entry : RtspEntry)
    (hp : lookupStr st.pendingSessions request.sessionID = some si)
    (hon : env.isOnline = true) (hr : env.findRtsp = some entry)
    (hs : st.savedBitrate = 0) (hneg : env.getBitrate ≤ 0) :
    (startStream st request env).1.savedBitrate = 0 ∧
    (∀ (s2 : DelegateState) (id : String) (rec : Bool), s2.savedBitrate = 0 →
      (stopStream noFault s2 id rec).2.filter isSetBitrateEffect = []) ∧
    (∀ (s2 : DelegateState) (request2 : StartStreamRequest) (env2 : StartEnv)
        (si2 : SessionInfo) (entry2 : RtspEntry),
      lookupStr s2.pendingSessions request2.sessionID = some si2 →
      env2.isOnline = true → env2.findRtsp = some entry2 → s2.savedBitrate = 0 →
      (startStream s2 request2 env2).1.savedBitrate =
        (if env2.getBitrate < 0 then 0 else env2.getBitrate)) := by
  refine ⟨?_, ?_, ?_⟩
  · rw [startStream_savedBitrate st request env si entry hp hon hr, if_pos hs]
    split
    · rfl
    · omega
  · intro s2 id rec h0
    exact stopStream_no_restore_of_saved_zero s2 id rec h0
  · intro s2 request2 env2 si2 entry2 hp2 hon2 hr2 hs2
    rw [startStream_savedBitrate s2 request2 env2 si2 entry2 hp2 hon2 hr2, if_pos hs2]

/-- Pending session record for the claim C10 witness. -/
def w10Info : SessionInfo :=
  { address := "192.168.1.11"
    addressVersion := "ipv4"
    videoPort := 4002
    videoReturnPort := 50002
    videoCryptoSuite := 0
    videoSRTP := [3, 4]
    videoSSRC := 2
    hasAudioSupport := false
    audioPort := 4000
    audioIncomingRtcpPort := 50000
    audioIncomingRtpPort := -1
    rtpDemuxer := false
    rtpPortReservations := [50000, 50002]
    talkBack := none
    audioCryptoSuite := 0
    audioSRTP := [1, 2]
    audioSSRC := 1 }

/-- Concrete delegate state for the claim C10 witness. -/
def w10State : DelegateState :=
  { initState false with pendingSessions := [("w", w10Info)] }

/-- Start request for the claim C10 witness. -/
def w10Req : StartStreamRequest :=
  { sessionID := "w"
    audio := { packet_time := 20, pt := 110, sample_rate := 16, max_bit_rate := 24, channel := 1 }
    video := { width := 1280, height := 720, fps := 30, max_bit_rate := 2000, pt := 99,
               profile := 1, level := 1 } }

/-- RTSP entry for the claim C10 witness. -/
def w10Entry : RtspEntry :=
  { channelId := 2, fps := 30, bitrate := 1000000, url := "rtsp://cam/2", name := "Med" }

/-- Start environment for the claim C10 witness: the camera reports the
negative bitrate -5. -/
def w10Env : StartEnv :=
  { isOnline := true
    findRtsp := some w10Entry
    getBitrate := -5
    hints := { transcode := false, transcodeHighLatency := false, hardwareTranscoding := false,
               twoWayAudio := false, probesize := 16, audioFilterNoise := false }
    ffmpegOptions := { videoDecoder := [], audioEncoder := [], audioDecoder := "aac",
                       hostSystemMaxPixels := 0, streamEncoderArgs := [] }
    verboseFfmpeg := false
    enableDetailedLogging := false
    cameraName := "Cam"
    afOptions := ""
    rtpEventArrives := true
    demuxerRunningAfterRtp := true }

/-- Witness for claim C10 at the camera reading -5. -/
theorem savedBitrate_nonpositive_clamped_witness :
    (startStream w10State w10Req w10Env).1.savedBitrate = 0 ∧
    (∀ (s2 : DelegateState) (id : String) (rec : Bool), s2.savedBitrate = 0 →
      (stopStream noFault s2 id rec).2.filter isSetBitrateEffect = []) ∧
    (∀ (s2 : DelegateState) (request2 : StartStreamRequest) (env2 : StartEnv)
        (si2 : SessionInfo) (entry2 : RtspEntry),
      lookupStr s2.pendingSessions request2.sessionID = some si2 →
      env2.isOnline = true → env2.findRtsp = some entry2 → s2.savedBitrate = 0 →
      (startStream s2 request2 env2).1.savedBitrate =
        (if env2.getBitrate < 0 then 0 else env2.getBitrate)) :=
  savedBitrate_nonpositive_clamped w10State w10Req w10Env w10Info w10Entry rfl rfl rfl
    rfl (by decide)

/-- The results of the port reservoir calls recorded in an effect trace, in
call order. -/
def reservoirResults (tr : List Effect) : List Int :=
  tr.filterMap (fun e =>
    match e with
    | Effect.reservePortCall _ _ r => some r
    | _ => none)

/-- Invariant of the reservePort closure state: every reservoir result but
possibly the last is a success, and when the failure flag is still clear
every result is a success. -/
def goodResults (rs : ReserveState) : Prop :=
  ((reservoirResults rs.trace).dropLast.all (fun r => r != -1) = true) ∧
  (rs.reservePortFailed = false →
    (reservoirResults rs.trace).all (fun r => r != -1) = true)

theorem reservoirResults_append (a b : List Effect) :
    reservoirResults (a ++ b) = reservoirResults a ++ reservoirResults b := by
  simp [reservoirResults]

theorem mem_of_mem_dropLast {α : Type} (l : List α) (a : α)
    (h : a ∈ l.dropLast) : a ∈ l := by
  induction l with
  | nil => simp at h
  | cons x l ih =>
    cases l with
    | nil => simp at h
    | cons y l =>
      rcases List.mem_cons.mp h with h1 | h1
      · rw [h1]; exact List.mem_cons_self _ _
      · exact List.mem_cons_of_mem _ (ih h1)

theorem good_dropLast (rs : ReserveState) (h : goodResults rs) :
    (reservoirResults rs.trace).dropLast.all (fun r => r != -1) = true := by
  by_cases hf : rs.reservePortFailed
  · exact h.1
  · have h2 := h.2 (by simpa using hf)
    rw [List.all_eq_true] at h2 ⊢
    intro x hx
    exact h2 x (mem_of_mem_dropLast _ _ hx)

theorem reservePort_good (env : PrepareEnv) (fam : String) (cnt : Nat)
    (rs : ReserveState) (h : goodResults rs) :
    goodResults (reservePort env fam cnt rs).2 := by
  unfold reservePort
  by_cases hf : rs.reservePortFailed
  · rw [if_pos hf]
    exact h
  · rw [if_neg hf]
    dsimp only
    have hfl : rs.reservePortFailed = false := by simpa using hf
    by_cases hc : env.reservoir rs.callIndex = -1
    · rw [if_pos hc]
      constructor
      · dsimp only
        rw [reservoirResults_append]
        have : reservoirResults [Effect.reservePortCall fam cnt (env.reservoir rs.callIndex)] =
            [env.reservoir rs.callIndex] := rfl
        rw [this, List.dropLast_concat]
        exact h.2 hfl
      · intro habs
        simp at habs
    · rw [if_neg hc]
      by_cases h2 : cnt = 2 <;>
        [rw [if_pos h2]; rw [if_neg h2]] <;>
      · constructor
        · dsimp only
          rw [reservoirResults_append]
          have heq : reservoirResults [Effect.reservePortCall fam cnt (env.reservoir rs.callIndex)] =
              [env.reservoir rs.callIndex] := rfl
          rw [heq, List.dropLast_concat]
          exact h.2 hfl
        · intro _
          dsimp only
          rw [reservoirResults_append]
          have heq : reservoirResults [Effect.reservePortCall fam cnt (env.reservoir rs.callIndex)] =
              [env.reservoir rs.callIndex] := rfl
          rw [heq, List.all_append]
          have h3 := h.2 hfl
          rw [h3]
          simpa using hc

theorem good_log (rs : ReserveState) (e : Effect) (h : goodResults rs)
    (he : reservoirResults [e] = []) :
    goodResults { rs with trace := rs.trace ++ [e] } := by
  constructor
  · dsimp only
    rw [reservoirResults_append, he, List.append_nil]
    exact h.1
  · intro hf
    dsimp only at hf ⊢
    rw [reservoirResults_append, he, List.append_nil]
    exact h.2 hf

theorem good_init : goodResults ⟨false, [], 0, []⟩ := by
  constructor <;> simp [reservoirResults]

theorem reservoirResults_ite_logError (b : Bool) :
    reservoirResults (if b then [Effect.logError] else []) = [] := by
  cases b <;> rfl

theorem reservoirResults_callback (r : PrepareStreamResponse) :
    reservoirResults [Effect.prepareCallback r] = [] := rfl

/-- Claim C6: for every prepareStream call, every reservoir call that
returns a failure is the last reservoir call of the attempt (after the first
failure the closure never calls the reservoir again), and the call always
ends by invoking the prepare callback with a response object. -/
theorem prepareStream_reservation (st : DelegateState)
    (request : PrepareStreamRequest) (env : PrepareEnv) :
    ((reservoirResults (prepareStream st request env).2).dropLast.all
      (fun r => r != -1) = true) ∧
    ∃ response, (prepareStream st request env).2.getLast? =
      some (Effect.prepareCallback response) := by
  constructor
  · unfold prepareStream
    dsimp only [Option.isNone_none, Bool.and_true, Bool.true_and]
    by_cases hA : env.audioEncoderNonempty
    · by_cases hW : env.twoWayAudio
      · simp only [hA, hW, Bool.and_self, Bool.true_and, Bool.and_true, Bool.not_true,
          Bool.false_eq_true, if_false, if_true]
        rw [reservoirResults_append, reservoirResults_append,
          reservoirResults_ite_logError]
        simp only [List.append_nil]
        rw [reservoirResults_callback, List.append_nil]
        refine good_dropLast _ ?_
        refine reservePort_good _ _ _ _ ?_
        refine good_log _ _ ?_ rfl
        refine reservePort_good _ _ _ _ ?_
        refine reservePort_good _ _ _ _ ?_
        refine reservePort_good _ _ _ _ ?_
        exact good_init
      · simp only [hA, hW, Bool.and_self, Bool.true_and, Bool.and_false, Bool.not_true,
          Bool.false_eq_true, if_false, if_true]
        rw [reservoirResults_append, reservoirResults_append,
          reservoirResults_ite_logError]
        simp only [List.append_nil]
        rw [reservoirResults_callback, List.append_nil]
        refine good_dropLast _ ?_
        refine reservePort_good _ _ _ _ ?_
        refine reservePort_good _ _ _ _ ?_
        exact good_init
    · simp only [hA, Bool.false_and, Bool.and_false, Bool.not_false, Bool.false_eq_true,
        if_false, if_true]
      rw [reservoirResults_append, reservoirResults_append,
        reservoirResults_ite_logError]
      simp only [List.append_nil]
      rw [reservoirResults_callback, List.append_nil]
      refine good_dropLast _ ?_
      refine reservePort_good _ _ _ _ ?_
      refine good_log _ _ ?_ rfl
      refine reservePort_good _ _ _ _ ?_
      exact good_init
  · unfold prepareStream
    dsimp only
    exact ⟨_, List.getLast?_concat _⟩

end ProtectStream
